import Mathlib

/-!
Shallow embedding of the consensus node of the LibraBFT simulator
(src/rust/librabft_simulator/src/node.rs).

The node's external collaborators — the record store, the pacemaker and the
replicated-state-machine (SMR) context — are not part of the embedded source
file; only their call sites appear in node.rs. Following the spec, which
treats these modules as opaque interfaces, they are modelled as an abstract
bundle `Env` of pure state-passing functions over opaque state types
collected in `CoreTypes`. Every definition below mirrors the corresponding
Rust item of node.rs; definitions taken from the spec because the source is
elsewhere in the repository are marked in their doc comments.
-/

/- Modelled from the spec (base_types.rs is not part of the embedded
source): rounds (Round), epoch identifiers (EpochId), and validator
identities (Author) are monotonically increasing opaque integers, modelled
as Nat; clock values (NodeTime, a signed 64-bit integer in the source tree)
are modelled as Int; time offsets (Duration) are non-negative and modelled
as Nat. -/

/-- Modelled from the spec: the sentinel time value representing the absence
of a scheduled wake-up (the largest signed 64-bit value). -/
def NodeTime.never : Int := 9223372036854775807

/-- Modelled from the spec: Round::max_update raises a round variable to the
maximum of itself and the argument. -/
def Round.max_update (r s : Nat) : Nat := max r s

/-- Opaque carrier types of the external collaborators: the record store
state, the pacemaker state, the SMR context, the replicated application
state, per-epoch configurations, quorum certificates, hashes, network
records, and the floating-point pacemaker tuning parameters. -/
structure CoreTypes : Type 1 where
  RecordStoreState : Type
  PacemakerState : Type
  SMRContext : Type
  State : Type
  Config : Type
  QuorumCertificate : Type
  BlockHash : Type
  QuorumCertificateHash : Type
  Record : Type
  F64 : Type

/-- Modelled from the spec: the action bundle returned by the pacemaker's
update (pacemaker.rs is not part of the embedded source); the fields are
exactly those read by node.rs. -/
structure PacemakerUpdateActions (T : CoreTypes) where
  next_scheduled_update : Int
  should_broadcast : Bool
  should_query_all : Bool
  should_send : List Nat
  should_create_timeout : Option Nat
  should_propose_block : Option T.QuorumCertificateHash

/-- Action bundle returned by `update_node` to the driver. -/
structure NodeUpdateActions where
  next_scheduled_update : Int
  should_broadcast : Bool
  should_query_all : Bool
  should_send : List Nat
deriving DecidableEq

/-- Modelled from the spec: NodeUpdateActions::new (defined outside node.rs)
starts with no requested actions and no scheduled wake-up. -/
def NodeUpdateActions.new : NodeUpdateActions :=
  { next_scheduled_update := NodeTime.never
    should_broadcast := false
    should_query_all := false
    should_send := [] }

/-- CommitTracker (node.rs lines 45-56). -/
structure CommitTracker where
  epoch_id : Nat
  highest_committed_round : Nat
  latest_commit_time : Int
  target_commit_interval : Nat
deriving DecidableEq

/-- CommitTracker::new (node.rs lines 59-66). -/
def CommitTracker.new (epoch_id : Nat) (node_time : Int)
    (target_commit_interval : Nat) : CommitTracker :=
  { epoch_id := epoch_id
    highest_committed_round := 0
    latest_commit_time := node_time
    target_commit_interval := target_commit_interval }

/-- CommitTrackerUpdateActions (node.rs lines 305-311). -/
structure CommitTrackerUpdateActions where
  next_scheduled_update : Int
  should_query_all : Bool
deriving DecidableEq

/-- CommitTrackerUpdateActions::new (node.rs lines 350-357). -/
def CommitTrackerUpdateActions.new : CommitTrackerUpdateActions :=
  { should_query_all := false
    next_scheduled_update := NodeTime.never }

/-- NodeState (node.rs lines 21-41). The HashMap of past record stores is
modelled as a function to `Option`. -/
structure NodeState (T : CoreTypes) where
  record_store : T.RecordStoreState
  pacemaker : T.PacemakerState
  epoch_id : Nat
  local_author : Nat
  latest_voted_round : Nat
  locked_round : Nat
  latest_query_all_time : Int
  tracker : CommitTracker
  past_record_stores : Nat → Option T.RecordStoreState

/-- Interface of the external collaborators, as consumed by node.rs: the
record store (rs_*), the pacemaker (pm_*) and the SMR context (smr_*).
Stateful Rust methods taking `&mut self` (and possibly a `&mut SMRContext`)
become pure functions returning the updated states. `initial_hash` models
EpochId::initial_hash from base_types. `smr_read_epoch_id` and `smr_config`
are modelled from the spec as pure functions of the delivered state. -/
structure Env (T : CoreTypes) where
  initial_hash : Nat → T.QuorumCertificateHash
  rs_new : T.QuorumCertificateHash → T.State → Nat → T.Config → T.RecordStoreState
  rs_insert_network_record :
    T.RecordStoreState → T.Record → T.SMRContext → T.RecordStoreState × T.SMRContext
  rs_create_timeout :
    T.RecordStoreState → Nat → Nat → T.SMRContext → T.RecordStoreState × T.SMRContext
  rs_propose_block :
    T.RecordStoreState → Nat → T.QuorumCertificateHash → Int → T.SMRContext →
      T.RecordStoreState × T.SMRContext
  rs_proposed_block :
    T.RecordStoreState → T.PacemakerState → Option (T.BlockHash × Nat × Nat)
  rs_previous_round : T.RecordStoreState → T.BlockHash → Nat
  rs_second_previous_round : T.RecordStoreState → T.BlockHash → Nat
  rs_create_vote :
    T.RecordStoreState → Nat → T.BlockHash → T.SMRContext →
      Bool × T.RecordStoreState × T.SMRContext
  rs_check_for_new_quorum_certificate :
    T.RecordStoreState → Nat → T.SMRContext → Bool × T.RecordStoreState × T.SMRContext
  rs_committed_states_after : T.RecordStoreState → Nat → List (Nat × T.State)
  rs_highest_committed_round : T.RecordStoreState → Nat
  rs_highest_commit_certificate : T.RecordStoreState → Option T.QuorumCertificate
  pm_new : Nat → Int → Nat → T.F64 → T.F64 → T.PacemakerState
  pm_update_pacemaker :
    T.PacemakerState → Nat → Nat → T.RecordStoreState → Int → Int →
      PacemakerUpdateActions T × T.PacemakerState
  pm_active_round : T.PacemakerState → Nat
  smr_commit : T.SMRContext → T.State → Option T.QuorumCertificate → T.SMRContext
  smr_read_epoch_id : T.State → Nat
  smr_config : T.State → T.Config

variable {T : CoreTypes}

/-- NodeState::new (node.rs lines 70-99). -/
def NodeState.new (env : Env T) (local_author : Nat) (initial_state : T.State)
    (node_time : Int) (target_commit_interval : Nat) (delta : Nat)
    (gamma lambda : T.F64) : NodeState T :=
  let epoch_id : Nat := 0
  let tracker := CommitTracker.new epoch_id node_time target_commit_interval
  let record_store :=
    env.rs_new (env.initial_hash epoch_id) initial_state epoch_id (env.smr_config initial_state)
  { record_store := record_store
    pacemaker := env.pm_new epoch_id node_time delta gamma lambda
    epoch_id := epoch_id
    local_author := local_author
    latest_voted_round := 0
    locked_round := 0
    latest_query_all_time := node_time
    tracker := tracker
    past_record_stores := fun _ => none }

/-- NodeState::record_store_at (node.rs lines 113-121). -/
def NodeState.record_store_at (node : NodeState T) (epoch_id : Nat) :
    Option T.RecordStoreState :=
  if epoch_id = node.epoch_id then some node.record_store
  else node.past_record_stores epoch_id

/-- NodeState::insert_network_record (node.rs lines 137-151): a record for a
foreign epoch is dropped with a diagnostic only. -/
def NodeState.insert_network_record (env : Env T) (node : NodeState T) (epoch_id : Nat)
    (record : T.Record) (ctx : T.SMRContext) : NodeState T × T.SMRContext :=
  if epoch_id = node.epoch_id then
    let r := env.rs_insert_network_record node.record_store record ctx
    ({ node with record_store := r.1 }, r.2)
  else
    (node, ctx)

/-- NodeState::active_round (node.rs lines 154-158). -/
def NodeState.active_round (env : Env T) (node : NodeState T) : Nat :=
  env.pm_active_round node.pacemaker

/-- CommitTracker::update_tracker (node.rs lines 313-347). -/
def CommitTracker.update_tracker (env : Env T) (t : CommitTracker)
    (latest_query_all_time clock : Int) (current_epoch_id : Nat)
    (current_record_store : T.RecordStoreState) :
    CommitTracker × CommitTrackerUpdateActions :=
  let t :=
    if current_epoch_id > t.epoch_id then
      { t with
        epoch_id := current_epoch_id
        highest_committed_round := env.rs_highest_committed_round current_record_store
        latest_commit_time := clock }
    else
      let highest_committed_round := env.rs_highest_committed_round current_record_store
      if highest_committed_round > t.highest_committed_round then
        { t with
          highest_committed_round := highest_committed_round
          latest_commit_time := clock }
      else t
  let deadline :=
    max t.latest_commit_time latest_query_all_time + (t.target_commit_interval : Int)
  if clock ≥ deadline then
    (t, { CommitTrackerUpdateActions.new with
           should_query_all := true
           next_scheduled_update := clock + (t.target_commit_interval : Int) })
  else
    (t, { CommitTrackerUpdateActions.new with
           should_query_all := false
           next_scheduled_update := deadline })

/-- NodeState::update_tracker (node.rs lines 127-135): updates the commit
tracker against the current record store, ignoring the returned actions. -/
def NodeState.update_tracker (env : Env T) (node : NodeState T) (clock : Int) :
    NodeState T :=
  let r := CommitTracker.update_tracker env node.tracker node.latest_query_all_time clock
    node.epoch_id node.record_store
  { node with tracker := r.1 }

/-- NodeState::process_pacemaker_actions (node.rs lines 162-188). -/
def NodeState.process_pacemaker_actions (env : Env T) (node : NodeState T)
    (pacemaker_actions : PacemakerUpdateActions T) (clock : Int) (ctx : T.SMRContext) :
    NodeState T × T.SMRContext × NodeUpdateActions :=
  let actions : NodeUpdateActions :=
    { NodeUpdateActions.new with
      next_scheduled_update := pacemaker_actions.next_scheduled_update
      should_broadcast := pacemaker_actions.should_broadcast
      should_query_all := pacemaker_actions.should_query_all
      should_send := pacemaker_actions.should_send }
  let s1 : NodeState T × T.SMRContext :=
    match pacemaker_actions.should_create_timeout with
    | some round =>
      let r := env.rs_create_timeout node.record_store node.local_author round ctx
      ({ node with
          record_store := r.1
          latest_voted_round := Round.max_update node.latest_voted_round round }, r.2)
    | none => (node, ctx)
  let s2 : NodeState T × T.SMRContext :=
    match pacemaker_actions.should_propose_block with
    | some previous_qc_hash =>
      let r := env.rs_propose_block s1.1.record_store s1.1.local_author previous_qc_hash
        clock s1.2
      ({ s1.1 with record_store := r.1 }, r.2)
    | none => s1
  (s2.1, s2.2, actions)

/-- Voting step of update_node (node.rs lines 205-229): vote on the proposal
designated by the pacemaker, subject to the two voting safety rules. -/
def NodeState.vote_phase (env : Env T) (node : NodeState T) (ctx : T.SMRContext)
    (actions : NodeUpdateActions) : NodeState T × T.SMRContext × NodeUpdateActions :=
  match env.rs_proposed_block node.record_store node.pacemaker with
  | some (block_hash, block_round, proposer) =>
    if block_round > node.latest_voted_round ∧
        env.rs_previous_round node.record_store block_hash ≥ node.locked_round then
      let node' :=
        { node with
          latest_voted_round := block_round
          locked_round :=
            max node.locked_round (env.rs_second_previous_round node.record_store block_hash) }
      let r := env.rs_create_vote node'.record_store node'.local_author block_hash ctx
      let node'' := { node' with record_store := r.2.1 }
      if r.1 then (node'', r.2.2, { actions with should_send := [proposer] })
      else (node'', r.2.2, actions)
    else (node, ctx, actions)
  | none => (node, ctx, actions)

/-- Body of the commit-delivery loop of process_commits (node.rs lines
268-299), recursing over the list of pending committed states and stopping
right after an epoch transition. -/
def NodeState.process_commits_from (env : Env T) :
    NodeState T → T.SMRContext → List (Nat × T.State) → NodeState T × T.SMRContext
  | node, ctx, [] => (node, ctx)
  | node, ctx, (round, state) :: rest =>
    let ctx :=
      if round = env.rs_highest_committed_round node.record_store then
        env.smr_commit ctx state (env.rs_highest_commit_certificate node.record_store)
      else
        env.smr_commit ctx state none
    let new_epoch_id := env.smr_read_epoch_id state
    if new_epoch_id > node.epoch_id then
      let new_record_store :=
        env.rs_new (env.initial_hash new_epoch_id) state new_epoch_id (env.smr_config state)
      let node' :=
        { node with
          record_store := new_record_store
          past_record_stores := fun e =>
            if e = node.epoch_id then some node.record_store else node.past_record_stores e
          epoch_id := new_epoch_id
          latest_voted_round := 0
          locked_round := 0 }
      (node', ctx)
    else
      NodeState.process_commits_from env node ctx rest

/-- NodeState::process_commits (node.rs lines 266-301). -/
def NodeState.process_commits (env : Env T) (node : NodeState T) (ctx : T.SMRContext) :
    NodeState T × T.SMRContext :=
  NodeState.process_commits_from env node ctx
    (env.rs_committed_states_after node.record_store node.tracker.highest_committed_round)

/-- Pacemaker-update and pacemaker-action phases of update_node (node.rs
lines 197-204). -/
def NodeState.pre_vote (env : Env T) (node : NodeState T) (clock : Int)
    (ctx : T.SMRContext) : NodeState T × T.SMRContext × NodeUpdateActions :=
  let pr := env.pm_update_pacemaker node.pacemaker node.local_author node.epoch_id
    node.record_store node.latest_query_all_time clock
  NodeState.process_pacemaker_actions env { node with pacemaker := pr.2 } pr.1 clock ctx

/-- State of update_node after the pacemaker phases and the voting step
(node.rs lines 197-229). -/
def NodeState.post_vote (env : Env T) (node : NodeState T) (clock : Int)
    (ctx : T.SMRContext) : NodeState T × T.SMRContext × NodeUpdateActions :=
  let s := NodeState.pre_vote env node clock ctx
  NodeState.vote_phase env s.1 s.2.1 s.2.2

/-- State of update_node after the pacemaker phases, the voting step, and
the quorum-certificate check (node.rs lines 197-239), just before commit
processing. -/
def NodeState.pre_commits (env : Env T) (node : NodeState T) (clock : Int)
    (ctx : T.SMRContext) : NodeState T × T.SMRContext × NodeUpdateActions :=
  let s := NodeState.post_vote env node clock ctx
  let q := env.rs_check_for_new_quorum_certificate s.1.record_store s.1.local_author s.2.1
  let node1 := { s.1 with record_store := q.2.1 }
  let actions1 :=
    if q.1 then
      { s.2.2 with should_broadcast := true, next_scheduled_update := clock }
    else s.2.2
  (node1, q.2.2, actions1)

/-- ConsensusNode::update_node for NodeState (node.rs lines 193-261). -/
def NodeState.update_node (env : Env T) (node : NodeState T) (clock : Int)
    (ctx : T.SMRContext) : NodeState T × T.SMRContext × NodeUpdateActions :=
  let s := NodeState.pre_commits env node clock ctx
  let pc := NodeState.process_commits env s.1 s.2.1
  let tr := CommitTracker.update_tracker env pc.1.tracker pc.1.latest_query_all_time clock
    pc.1.epoch_id pc.1.record_store
  let node2 := { pc.1 with tracker := tr.1 }
  let actions2 :=
    { s.2.2 with
      should_query_all := s.2.2.should_query_all || tr.2.should_query_all
      next_scheduled_update :=
        min s.2.2.next_scheduled_update tr.2.next_scheduled_update }
  let node3 :=
    if actions2.should_query_all then { node2 with latest_query_all_time := clock } else node2
  (node3, pc.2, actions2)

/-- Spec-side description of commit delivery (spec section 4.1.1): deliver
every pair of the batch to the SMR context, passing the commit certificate
exactly for the round equal to the store's highest committed round and no
certificate for every other round. -/
def deliverAll (env : Env T) (store : T.RecordStoreState) :
    T.SMRContext → List (Nat × T.State) → T.SMRContext
  | ctx, [] => ctx
  | ctx, (round, state) :: rest =>
    let ctx' :=
      if round = env.rs_highest_committed_round store then
        env.smr_commit ctx state (env.rs_highest_commit_certificate store)
      else
        env.smr_commit ctx state none
    deliverAll env store ctx' rest

theorem process_commits_from_no_transition (env : Env T) (node : NodeState T)
    (ctx : T.SMRContext) (l : List (Nat × T.State))
    (h : ∀ p ∈ l, env.smr_read_epoch_id p.2 ≤ node.epoch_id) :
    NodeState.process_commits_from env node ctx l =
      (node, deliverAll env node.record_store ctx l) := by
  induction l generalizing ctx with
  | nil => rfl
  | cons p rest ih =>
    obtain ⟨round, state⟩ := p
    have hle : ¬ env.smr_read_epoch_id state > node.epoch_id :=
      not_lt.mpr (h (round, state) (List.mem_cons_self _ _))
    simp only [NodeState.process_commits_from, deliverAll, hle, if_false]
    exact ih _ (fun p hp => h p (List.mem_cons_of_mem _ hp))

theorem process_commits_from_cases (env : Env T) (l : List (Nat × T.State)) :
    ∀ (node : NodeState T) (ctx : T.SMRContext),
    (NodeState.process_commits_from env node ctx l).1 = node ∨
    ((NodeState.process_commits_from env node ctx l).1.epoch_id > node.epoch_id ∧
     (NodeState.process_commits_from env node ctx l).1.latest_voted_round = 0 ∧
     (NodeState.process_commits_from env node ctx l).1.locked_round = 0 ∧
     (NodeState.process_commits_from env node ctx l).1.tracker = node.tracker ∧
     (NodeState.process_commits_from env node ctx l).1.latest_query_all_time =
       node.latest_query_all_time ∧
     (NodeState.process_commits_from env node ctx l).1.local_author = node.local_author ∧
     ∀ e s, (NodeState.process_commits_from env node ctx l).1.past_record_stores e = some s →
       e = node.epoch_id ∨ node.past_record_stores e = some s) := by
  induction l with
  | nil => intro node ctx; left; rfl
  | cons p rest ih =>
    intro node ctx
    obtain ⟨round, state⟩ := p
    simp only [NodeState.process_commits_from]
    by_cases h : env.smr_read_epoch_id state > node.epoch_id
    · rw [if_pos h]
      right
      refine ⟨h, rfl, rfl, rfl, rfl, rfl, ?_⟩
      intro e s hs
      simp only at hs
      by_cases he : e = node.epoch_id
      · exact Or.inl he
      · right; rw [if_neg he] at hs; exact hs
    · rw [if_neg h]
      exact ih node _

theorem pre_vote_fields (env : Env T) (node : NodeState T) (clock : Int)
    (ctx : T.SMRContext) :
    (NodeState.pre_vote env node clock ctx).1.epoch_id = node.epoch_id ∧
    node.latest_voted_round ≤ (NodeState.pre_vote env node clock ctx).1.latest_voted_round ∧
    (NodeState.pre_vote env node clock ctx).1.locked_round = node.locked_round ∧
    (NodeState.pre_vote env node clock ctx).1.tracker = node.tracker ∧
    (NodeState.pre_vote env node clock ctx).1.latest_query_all_time =
      node.latest_query_all_time ∧
    (NodeState.pre_vote env node clock ctx).1.local_author = node.local_author ∧
    (NodeState.pre_vote env node clock ctx).1.past_record_stores =
      node.past_record_stores := by
  simp only [NodeState.pre_vote, NodeState.process_pacemaker_actions]
  split <;> split <;> simp [Round.max_update, Nat.le_max_left]

theorem vote_phase_fields (env : Env T) (node : NodeState T) (ctx : T.SMRContext)
    (actions : NodeUpdateActions) :
    (NodeState.vote_phase env node ctx actions).1.epoch_id = node.epoch_id ∧
    node.latest_voted_round ≤ (NodeState.vote_phase env node ctx actions).1.latest_voted_round ∧
    node.locked_round ≤ (NodeState.vote_phase env node ctx actions).1.locked_round ∧
    (NodeState.vote_phase env node ctx actions).1.tracker = node.tracker ∧
    (NodeState.vote_phase env node ctx actions).1.latest_query_all_time =
      node.latest_query_all_time ∧
    (NodeState.vote_phase env node ctx actions).1.local_author = node.local_author ∧
    (NodeState.vote_phase env node ctx actions).1.past_record_stores =
      node.past_record_stores ∧
    (NodeState.vote_phase env node ctx actions).2.2.next_scheduled_update =
      actions.next_scheduled_update ∧
    (NodeState.vote_phase env node ctx actions).2.2.should_broadcast =
      actions.should_broadcast ∧
    (NodeState.vote_phase env node ctx actions).2.2.should_query_all =
      actions.should_query_all := by
  simp only [NodeState.vote_phase]
  split
  · rename_i block_hash block_round proposer heq
    split
    · rename_i hcond
      have h1 := le_of_lt hcond.1
      split <;> simp [Nat.le_max_left, h1]
    · simp
  · simp

theorem process_commits_cases (env : Env T) (node : NodeState T) (ctx : T.SMRContext) :
    (NodeState.process_commits env node ctx).1 = node ∨
    ((NodeState.process_commits env node ctx).1.epoch_id > node.epoch_id ∧
     (NodeState.process_commits env node ctx).1.latest_voted_round = 0 ∧
     (NodeState.process_commits env node ctx).1.locked_round = 0 ∧
     (NodeState.process_commits env node ctx).1.tracker = node.tracker ∧
     (NodeState.process_commits env node ctx).1.latest_query_all_time =
       node.latest_query_all_time ∧
     (NodeState.process_commits env node ctx).1.local_author = node.local_author ∧
     ∀ e s, (NodeState.process_commits env node ctx).1.past_record_stores e = some s →
       e = node.epoch_id ∨ node.past_record_stores e = some s) :=
  process_commits_from_cases env _ node ctx

theorem pre_commits_fields (env : Env T) (node : NodeState T) (clock : Int)
    (ctx : T.SMRContext) :
    (NodeState.pre_commits env node clock ctx).1.epoch_id = node.epoch_id ∧
    node.latest_voted_round ≤
      (NodeState.pre_commits env node clock ctx).1.latest_voted_round ∧
    node.locked_round ≤ (NodeState.pre_commits env node clock ctx).1.locked_round ∧
    (NodeState.pre_commits env node clock ctx).1.tracker = node.tracker ∧
    (NodeState.pre_commits env node clock ctx).1.latest_query_all_time =
      node.latest_query_all_time ∧
    (NodeState.pre_commits env node clock ctx).1.local_author = node.local_author ∧
    (NodeState.pre_commits env node clock ctx).1.past_record_stores =
      node.past_record_stores := by
  obtain ⟨h1, h2, h3, h4, h5, h6, h7⟩ := pre_vote_fields env node clock ctx
  obtain ⟨v1, v2, v3, v4, v5, v6, v7, -, -, -⟩ :=
    vote_phase_fields env (NodeState.pre_vote env node clock ctx).1
      (NodeState.pre_vote env node clock ctx).2.1 (NodeState.pre_vote env node clock ctx).2.2
  exact ⟨v1.trans h1, h2.trans v2, le_trans (le_of_eq h3.symm) v3, v4.trans h4,
    v5.trans h5, v6.trans h6, v7.trans h7⟩

theorem update_node_state_fields (env : Env T) (node : NodeState T) (clock : Int)
    (ctx : T.SMRContext) :
    (NodeState.update_node env node clock ctx).1.epoch_id =
      (NodeState.process_commits env (NodeState.pre_commits env node clock ctx).1
        (NodeState.pre_commits env node clock ctx).2.1).1.epoch_id ∧
    (NodeState.update_node env node clock ctx).1.latest_voted_round =
      (NodeState.process_commits env (NodeState.pre_commits env node clock ctx).1
        (NodeState.pre_commits env node clock ctx).2.1).1.latest_voted_round ∧
    (NodeState.update_node env node clock ctx).1.locked_round =
      (NodeState.process_commits env (NodeState.pre_commits env node clock ctx).1
        (NodeState.pre_commits env node clock ctx).2.1).1.locked_round ∧
    (NodeState.update_node env node clock ctx).1.past_record_stores =
      (NodeState.process_commits env (NodeState.pre_commits env node clock ctx).1
        (NodeState.pre_commits env node clock ctx).2.1).1.past_record_stores ∧
    (NodeState.update_node env node clock ctx).1.record_store =
      (NodeState.process_commits env (NodeState.pre_commits env node clock ctx).1
        (NodeState.pre_commits env node clock ctx).2.1).1.record_store ∧
    (NodeState.update_node env node clock ctx).1.local_author =
      (NodeState.process_commits env (NodeState.pre_commits env node clock ctx).1
        (NodeState.pre_commits env node clock ctx).2.1).1.local_author ∧
    (NodeState.update_node env node clock ctx).2.1 =
      (NodeState.process_commits env (NodeState.pre_commits env node clock ctx).1
        (NodeState.pre_commits env node clock ctx).2.1).2 := by
  simp only [NodeState.update_node]
  split <;> simp

theorem update_node_round_cases (env : Env T) (node : NodeState T) (clock : Int)
    (ctx : T.SMRContext) :
    ((NodeState.update_node env node clock ctx).1.epoch_id = node.epoch_id →
       node.latest_voted_round ≤
         (NodeState.update_node env node clock ctx).1.latest_voted_round ∧
       node.locked_round ≤ (NodeState.update_node env node clock ctx).1.locked_round) ∧
    ((NodeState.update_node env node clock ctx).1.epoch_id ≠ node.epoch_id →
       node.epoch_id < (NodeState.update_node env node clock ctx).1.epoch_id ∧
       (NodeState.update_node env node clock ctx).1.latest_voted_round = 0 ∧
       (NodeState.update_node env node clock ctx).1.locked_round = 0) := by
  obtain ⟨p1, p2, p3, -, -, -, -⟩ := pre_commits_fields env node clock ctx
  obtain ⟨u1, u2, u3, -, -, -, -⟩ := update_node_state_fields env node clock ctx
  rcases process_commits_cases env (NodeState.pre_commits env node clock ctx).1
      (NodeState.pre_commits env node clock ctx).2.1 with hsame | ⟨hgt, hlvr, hlok, -, -, -, -⟩
  · have e1 := congrArg NodeState.epoch_id hsame
    have e2 := congrArg NodeState.latest_voted_round hsame
    have e3 := congrArg NodeState.locked_round hsame
    simp only at e1 e2 e3
    constructor
    · intro _
      constructor <;> omega
    · intro hne
      exact absurd (by omega) hne
  · constructor
    · intro heq
      exact absurd heq (by omega)
    · intro _
      refine ⟨by omega, by omega, by omega⟩

theorem update_node_epoch_mono (env : Env T) (node : NodeState T) (clock : Int)
    (ctx : T.SMRContext) :
    node.epoch_id ≤ (NodeState.update_node env node clock ctx).1.epoch_id := by
  by_cases h : (NodeState.update_node env node clock ctx).1.epoch_id = node.epoch_id
  · omega
  · exact le_of_lt ((update_node_round_cases env node clock ctx).2 h).1

theorem insert_network_record_fields (env : Env T) (node : NodeState T) (e : Nat)
    (r : T.Record) (ctx : T.SMRContext) :
    (NodeState.insert_network_record env node e r ctx).1.epoch_id = node.epoch_id ∧
    (NodeState.insert_network_record env node e r ctx).1.latest_voted_round =
      node.latest_voted_round ∧
    (NodeState.insert_network_record env node e r ctx).1.locked_round = node.locked_round ∧
    (NodeState.insert_network_record env node e r ctx).1.tracker = node.tracker ∧
    (NodeState.insert_network_record env node e r ctx).1.latest_query_all_time =
      node.latest_query_all_time ∧
    (NodeState.insert_network_record env node e r ctx).1.local_author = node.local_author ∧
    (NodeState.insert_network_record env node e r ctx).1.pacemaker = node.pacemaker ∧
    (NodeState.insert_network_record env node e r ctx).1.past_record_stores =
      node.past_record_stores := by
  simp only [NodeState.insert_network_record]
  split <;> simp

/-- Driver interaction step: an inbound network record or a clock tick. -/
inductive Step (T : CoreTypes) where
  | insert (epoch_id : Nat) (record : T.Record)
  | update (clock : Int)

/-- Run a sequence of driver interactions against the node. -/
def execSteps (env : Env T) : NodeState T → T.SMRContext → List (Step T) →
    NodeState T × T.SMRContext
  | node, ctx, [] => (node, ctx)
  | node, ctx, Step.insert e r :: rest =>
    let s := NodeState.insert_network_record env node e r ctx
    execSteps env s.1 s.2 rest
  | node, ctx, Step.update c :: rest =>
    let s := NodeState.update_node env node c ctx
    execSteps env s.1 s.2.1 rest

theorem execSteps_epoch_mono (env : Env T) (steps : List (Step T)) :
    ∀ (node : NodeState T) (ctx : T.SMRContext),
      node.epoch_id ≤ (execSteps env node ctx steps).1.epoch_id := by
  induction steps with
  | nil => intro node ctx; exact le_rfl
  | cons st rest ih =>
    intro node ctx
    cases st with
    | insert e r =>
      simp only [execSteps]
      have h := (insert_network_record_fields env node e r ctx).1
      have := ih (NodeState.insert_network_record env node e r ctx).1
        (NodeState.insert_network_record env node e r ctx).2
      omega
    | update c =>
      simp only [execSteps]
      have h := update_node_epoch_mono env node c ctx
      have := ih (NodeState.update_node env node c ctx).1
        (NodeState.update_node env node c ctx).2.1
      omega

theorem execSteps_round_mono (env : Env T) (steps : List (Step T)) :
    ∀ (node : NodeState T) (ctx : T.SMRContext),
      (execSteps env node ctx steps).1.epoch_id = node.epoch_id →
      node.latest_voted_round ≤ (execSteps env node ctx steps).1.latest_voted_round ∧
      node.locked_round ≤ (execSteps env node ctx steps).1.locked_round := by
  induction steps with
  | nil => intro node ctx _; exact ⟨le_rfl, le_rfl⟩
  | cons st rest ih =>
    intro node ctx h
    cases st with
    | insert e r =>
      simp only [execSteps] at h ⊢
      obtain ⟨h1, h2, h3, -, -, -, -, -⟩ := insert_network_record_fields env node e r ctx
      have hrest := ih (NodeState.insert_network_record env node e r ctx).1
        (NodeState.insert_network_record env node e r ctx).2 (by omega)
      omega
    | update c =>
      simp only [execSteps] at h ⊢
      have hm1 := update_node_epoch_mono env node c ctx
      have hm2 := execSteps_epoch_mono env rest (NodeState.update_node env node c ctx).1
        (NodeState.update_node env node c ctx).2.1
      have heq : (NodeState.update_node env node c ctx).1.epoch_id = node.epoch_id := by omega
      have hstep := (update_node_round_cases env node c ctx).1 heq
      have hrest := ih (NodeState.update_node env node c ctx).1
        (NodeState.update_node env node c ctx).2.1 (by omega)
      exact ⟨le_trans hstep.1 hrest.1, le_trans hstep.2 hrest.2⟩

theorem vote_phase_no_vote (env : Env T) (node : NodeState T) (ctx : T.SMRContext)
    (actions : NodeUpdateActions) (block_hash : T.BlockHash) (block_round proposer : Nat)
    (hprop : env.rs_proposed_block node.record_store node.pacemaker =
      some (block_hash, block_round, proposer))
    (hviol : ¬ (block_round > node.latest_voted_round ∧
      env.rs_previous_round node.record_store block_hash ≥ node.locked_round)) :
    NodeState.vote_phase env node ctx actions = (node, ctx, actions) := by
  simp only [NodeState.vote_phase, hprop]
  rw [if_neg hviol]

theorem update_node_should_send (env : Env T) (node : NodeState T) (clock : Int)
    (ctx : T.SMRContext) :
    (NodeState.update_node env node clock ctx).2.2.should_send =
      (NodeState.pre_commits env node clock ctx).2.2.should_send := by
  simp only [NodeState.update_node]

theorem pre_commits_should_send (env : Env T) (node : NodeState T) (clock : Int)
    (ctx : T.SMRContext) :
    (NodeState.pre_commits env node clock ctx).2.2.should_send =
      (NodeState.post_vote env node clock ctx).2.2.should_send := by
  simp only [NodeState.pre_commits]
  split <;> simp

theorem update_tracker_nsu_ge_clock (env : Env T) (t : CommitTracker)
    (lqat clock : Int) (e : Nat) (store : T.RecordStoreState) :
    clock ≤ (CommitTracker.update_tracker env t lqat clock e store).2.next_scheduled_update := by
  simp only [CommitTracker.update_tracker]
  split
  · split <;> simp <;> omega
  · split <;> split <;> simp <;> omega

theorem update_tracker_hcr_ge (env : Env T) (t : CommitTracker) (lqat clock : Int)
    (e : Nat) (store : T.RecordStoreState) :
    env.rs_highest_committed_round store ≤
      (CommitTracker.update_tracker env t lqat clock e store).1.highest_committed_round := by
  simp only [CommitTracker.update_tracker]
  split
  · split <;> simp <;> omega
  · split <;> split <;> simp_all <;> omega

theorem committed_states_after_nil (env : Env T) (store : T.RecordStoreState) (r : Nat)
    (h1 : ∀ (q : Nat) p, p ∈ env.rs_committed_states_after store q → q < p.1)
    (h2 : ∀ (q : Nat) p, p ∈ env.rs_committed_states_after store q →
      p.1 ≤ env.rs_highest_committed_round store)
    (hr : env.rs_highest_committed_round store ≤ r) :
    env.rs_committed_states_after store r = [] := by
  cases hl : env.rs_committed_states_after store r with
  | nil => rfl
  | cons p rest =>
    have hmem : p ∈ env.rs_committed_states_after store r := by
      rw [hl]; exact List.mem_cons_self _ _
    have ha := h1 r p hmem
    have hb := h2 r p hmem
    omega

theorem process_commits_from_transition (env : Env T) (pre : List (Nat × T.State)) :
    ∀ (node : NodeState T) (ctx : T.SMRContext) (r : Nat) (s : T.State)
      (rest : List (Nat × T.State)),
      (∀ p ∈ pre, env.smr_read_epoch_id p.2 ≤ node.epoch_id) →
      env.smr_read_epoch_id s > node.epoch_id →
      NodeState.process_commits_from env node ctx (pre ++ (r, s) :: rest) =
        ({ node with
            record_store := env.rs_new (env.initial_hash (env.smr_read_epoch_id s)) s
              (env.smr_read_epoch_id s) (env.smr_config s)
            past_record_stores := fun e =>
              if e = node.epoch_id then some node.record_store else node.past_record_stores e
            epoch_id := env.smr_read_epoch_id s
            latest_voted_round := 0
            locked_round := 0 },
          deliverAll env node.record_store ctx (pre ++ [(r, s)])) := by
  induction pre with
  | nil =>
    intro node ctx r s rest hpre hs
    simp only [List.nil_append, NodeState.process_commits_from, deliverAll]
    rw [if_pos hs]
  | cons p pre ih =>
    intro node ctx r s rest hpre hs
    obtain ⟨r1, s1⟩ := p
    have h1 : ¬ env.smr_read_epoch_id s1 > node.epoch_id :=
      not_lt.mpr (hpre (r1, s1) (List.mem_cons_self _ _))
    simp only [List.cons_append, NodeState.process_commits_from, deliverAll, h1, if_false]
    exact ih node _ r s rest (fun p hp => hpre p (List.mem_cons_of_mem _ hp)) hs

theorem inv_preserved_process_commits (env : Env T) (node : NodeState T) (ctx : T.SMRContext)
    (hinv : ∀ e s, node.past_record_stores e = some s → e < node.epoch_id) :
    ∀ e s, (NodeState.process_commits env node ctx).1.past_record_stores e = some s →
      e < (NodeState.process_commits env node ctx).1.epoch_id := by
  rcases process_commits_cases env node ctx with hsame | ⟨hgt, -, -, -, -, -, hpast⟩
  · rw [hsame]; exact hinv
  · intro e s hs
    rcases hpast e s hs with he | hold
    · omega
    · have := hinv e s hold
      omega

theorem inv_preserved_update_node (env : Env T) (node : NodeState T) (clock : Int)
    (ctx : T.SMRContext)
    (hinv : ∀ e s, node.past_record_stores e = some s → e < node.epoch_id) :
    ∀ e s, (NodeState.update_node env node clock ctx).1.past_record_stores e = some s →
      e < (NodeState.update_node env node clock ctx).1.epoch_id := by
  obtain ⟨u1, -, -, u4, -, -, -⟩ := update_node_state_fields env node clock ctx
  obtain ⟨p1, -, -, -, -, -, p7⟩ := pre_commits_fields env node clock ctx
  have hinv2 : ∀ e s, (NodeState.pre_commits env node clock ctx).1.past_record_stores e =
      some s → e < (NodeState.pre_commits env node clock ctx).1.epoch_id := by
    intro e s hs
    rw [p7] at hs
    have := hinv e s hs
    omega
  intro e s hs
  rw [u4] at hs
  have h2 := inv_preserved_process_commits env (NodeState.pre_commits env node clock ctx).1
    (NodeState.pre_commits env node clock ctx).2.1 hinv2 e s hs
  omega

/-- Reachable node states: those produced from NodeState::new by any
sequence of the public mutating operations of node.rs. -/
inductive Reachable (env : Env T) : NodeState T → Prop where
  | init (la : Nat) (st : T.State) (nt : Int) (tci d : Nat) (g l : T.F64) :
      Reachable env (NodeState.new env la st nt tci d g l)
  | insert {node : NodeState T} (eid : Nat) (r : T.Record) (ctx : T.SMRContext) :
      Reachable env node →
      Reachable env (NodeState.insert_network_record env node eid r ctx).1
  | update {node : NodeState T} (clock : Int) (ctx : T.SMRContext) :
      Reachable env node → Reachable env (NodeState.update_node env node clock ctx).1
  | commits {node : NodeState T} (ctx : T.SMRContext) :
      Reachable env node → Reachable env (NodeState.process_commits env node ctx).1
  | track {node : NodeState T} (clock : Int) :
      Reachable env node → Reachable env (NodeState.update_tracker env node clock)

/-- Concrete instantiation of the opaque collaborator types for concrete
runs: record-store and pacemaker states are trivial, the SMR context is the
trace of (state, certificate) pairs delivered so far, and states, hashes,
configurations, certificates and records are naturals. -/
abbrev Tcx : CoreTypes :=
  { RecordStoreState := Unit
    PacemakerState := Unit
    SMRContext := List (Nat × Option Nat)
    State := Nat
    Config := Nat
    QuorumCertificate := Nat
    BlockHash := Nat
    QuorumCertificateHash := Nat
    Record := Nat
    F64 := Unit }

/-- Concrete collaborator behavior over `Tcx`, parametrized by the answers
the record store gives to each query; `smr_commit` appends the delivered
pair to the context trace, and the highest commit certificate is the
constant certificate 7. -/
def mkEnv (commits : Nat → List (Nat × Nat)) (hcr : Nat) (readE : Nat → Nat)
    (proposed : Option (Nat × Nat × Nat)) (prev sprev : Nat) (voteOk qcOk : Bool) :
    Env Tcx :=
  { initial_hash := fun _ => 0
    rs_new := fun _ _ _ _ => ()
    rs_insert_network_record := fun s _ c => (s, c)
    rs_create_timeout := fun s _ _ c => (s, c)
    rs_propose_block := fun s _ _ _ c => (s, c)
    rs_proposed_block := fun _ _ => proposed
    rs_previous_round := fun _ _ => prev
    rs_second_previous_round := fun _ _ => sprev
    rs_create_vote := fun s _ _ c => (voteOk, s, c)
    rs_check_for_new_quorum_certificate := fun s _ c => (qcOk, s, c)
    rs_committed_states_after := fun _ r => commits r
    rs_highest_committed_round := fun _ => hcr
    rs_highest_commit_certificate := fun _ => some 7
    pm_new := fun _ _ _ _ _ => ()
    pm_update_pacemaker := fun p _ _ _ _ _ =>
      ({ next_scheduled_update := NodeTime.never
         should_broadcast := false
         should_query_all := false
         should_send := []
         should_create_timeout := none
         should_propose_block := none }, p)
    pm_active_round := fun _ => 0
    smr_commit := fun c s cert => c ++ [(s, cert)]
    smr_read_epoch_id := readE
    smr_config := fun _ => 0 }

/-- Concrete node state over `Tcx` with empty past-store mapping. -/
def mkNode (eid lvr locked : Nat) (tracker : CommitTracker) : NodeState Tcx :=
  { record_store := ()
    pacemaker := ()
    epoch_id := eid
    local_author := 0
    latest_voted_round := lvr
    locked_round := locked
    latest_query_all_time := 0
    tracker := tracker
    past_record_stores := fun _ => none }

/-- C1: in every update_node call in which the record store designates a
proposed block (with its round and proposer), the node votes only if both
safety rules hold. If either Rule A (block_round > latest_voted_round) or
Rule B (parent round ≥ locked_round) fails at the voting step, that step
changes nothing — no create_vote effect on the record store or the SMR
context, no round updates — and the recipient list returned by the whole
tick is exactly the one the pacemaker phase produced (no recipient added). -/
theorem claim_c1_safety_rules_gate_voting (env : Env T) (node : NodeState T) (clock : Int)
    (ctx : T.SMRContext) (block_hash : T.BlockHash) (block_round proposer : Nat)
    (hprop : env.rs_proposed_block (NodeState.pre_vote env node clock ctx).1.record_store
        (NodeState.pre_vote env node clock ctx).1.pacemaker =
      some (block_hash, block_round, proposer))
    (hviol : ¬ (block_round > (NodeState.pre_vote env node clock ctx).1.latest_voted_round ∧
      env.rs_previous_round (NodeState.pre_vote env node clock ctx).1.record_store block_hash ≥
        (NodeState.pre_vote env node clock ctx).1.locked_round)) :
    NodeState.post_vote env node clock ctx = NodeState.pre_vote env node clock ctx ∧
    (NodeState.update_node env node clock ctx).2.2.should_send =
      (NodeState.pre_vote env node clock ctx).2.2.should_send := by
  have hid := vote_phase_no_vote env (NodeState.pre_vote env node clock ctx).1
    (NodeState.pre_vote env node clock ctx).2.1 (NodeState.pre_vote env node clock ctx).2.2
    block_hash block_round proposer hprop hviol
  have hpv : NodeState.post_vote env node clock ctx =
      NodeState.pre_vote env node clock ctx := by
    simp only [NodeState.post_vote]
    rw [hid]
  refine ⟨hpv, ?_⟩
  rw [update_node_should_send, pre_commits_should_send, hpv]

def envC1 : Env Tcx := mkEnv (fun _ => []) 0 (fun _ => 0) (some (0, 5, 3)) 0 0 true false

def nodeC1 : NodeState Tcx := mkNode 0 5 0 (CommitTracker.new 0 0 10)

/-- Witness for C1 at a concrete input: a proposal at round 5 while
latest_voted_round is already 5 is not voted on and adds no recipient. -/
theorem claim_c1_witness :
    NodeState.post_vote envC1 nodeC1 2 [] = NodeState.pre_vote envC1 nodeC1 2 [] ∧
    (NodeState.update_node envC1 nodeC1 2 []).2.2.should_send =
      (NodeState.pre_vote envC1 nodeC1 2 []).2.2.should_send :=
  claim_c1_safety_rules_gate_voting envC1 nodeC1 2 [] 0 5 3 (by rfl) (by decide)

/-- C9: when both voting rules pass but the record store's create_vote
returns false, the voting step has nonetheless already set
latest_voted_round to the block round and raised locked_round to the
maximum of itself and the grandparent round; only the recipient list is
withheld (the returned actions are unchanged), while the record store and
the SMR context keep the effects of the attempted command execution — so
the node forgoes voting at that round even though no vote was emitted. -/
theorem claim_c9_failed_vote_still_burns_round (env : Env T) (node : NodeState T)
    (ctx : T.SMRContext) (actions : NodeUpdateActions) (block_hash : T.BlockHash)
    (block_round proposer : Nat)
    (hprop : env.rs_proposed_block node.record_store node.pacemaker =
      some (block_hash, block_round, proposer))
    (hrules : block_round > node.latest_voted_round ∧
      env.rs_previous_round node.record_store block_hash ≥ node.locked_round)
    (hfail : (env.rs_create_vote node.record_store node.local_author block_hash ctx).1 =
      false) :
    (NodeState.vote_phase env node ctx actions).1.latest_voted_round = block_round ∧
    (NodeState.vote_phase env node ctx actions).1.locked_round =
      max node.locked_round (env.rs_second_previous_round node.record_store block_hash) ∧
    (NodeState.vote_phase env node ctx actions).2.2 = actions ∧
    (NodeState.vote_phase env node ctx actions).1.record_store =
      (env.rs_create_vote node.record_store node.local_author block_hash ctx).2.1 ∧
    (NodeState.vote_phase env node ctx actions).2.1 =
      (env.rs_create_vote node.record_store node.local_author block_hash ctx).2.2 := by
  simp only [NodeState.vote_phase, hprop]
  rw [if_pos hrules]
  simp [hfail]

def envC9 : Env Tcx := mkEnv (fun _ => []) 0 (fun _ => 0) (some (0, 5, 3)) 4 3 false false

def nodeC9 : NodeState Tcx := mkNode 0 2 1 (CommitTracker.new 0 0 10)

/-- Witness for C9 at a concrete input: rules pass (5 > 2 and 4 ≥ 1) but
create_vote fails, and the rounds are still updated. -/
theorem claim_c9_witness :
    (NodeState.vote_phase envC9 nodeC9 [] NodeUpdateActions.new).1.latest_voted_round = 5 ∧
    (NodeState.vote_phase envC9 nodeC9 [] NodeUpdateActions.new).1.locked_round =
      max nodeC9.locked_round (envC9.rs_second_previous_round nodeC9.record_store 0) ∧
    (NodeState.vote_phase envC9 nodeC9 [] NodeUpdateActions.new).2.2 =
      NodeUpdateActions.new ∧
    (NodeState.vote_phase envC9 nodeC9 [] NodeUpdateActions.new).1.record_store =
      (envC9.rs_create_vote nodeC9.record_store nodeC9.local_author 0 []).2.1 ∧
    (NodeState.vote_phase envC9 nodeC9 [] NodeUpdateActions.new).2.1 =
      (envC9.rs_create_vote nodeC9.record_store nodeC9.local_author 0 []).2.2 :=
  claim_c9_failed_vote_still_burns_round envC9 nodeC9 [] NodeUpdateActions.new 0 5 3
    (by rfl) (by decide) (by rfl)

/-- C2: within a single epoch, latest_voted_round and locked_round are each
non-decreasing across every sequence of insert_network_record and
update_node calls, and both are reset to Round 0 exactly when an epoch
transition occurs in process_commits: a commit pass that does not change
the epoch leaves both rounds unchanged, while a pass that changes it
(necessarily to a strictly larger epoch) sets both to 0. -/
theorem claim_c2_round_monotonicity (env : Env T) (steps : List (Step T))
    (node : NodeState T) (ctx ctx2 : T.SMRContext) :
    ((execSteps env node ctx steps).1.epoch_id = node.epoch_id →
       node.latest_voted_round ≤ (execSteps env node ctx steps).1.latest_voted_round ∧
       node.locked_round ≤ (execSteps env node ctx steps).1.locked_round) ∧
    ((NodeState.process_commits env node ctx2).1.epoch_id = node.epoch_id →
       (NodeState.process_commits env node ctx2).1.latest_voted_round =
         node.latest_voted_round ∧
       (NodeState.process_commits env node ctx2).1.locked_round = node.locked_round) ∧
    ((NodeState.process_commits env node ctx2).1.epoch_id ≠ node.epoch_id →
       node.epoch_id < (NodeState.process_commits env node ctx2).1.epoch_id ∧
       (NodeState.process_commits env node ctx2).1.latest_voted_round = 0 ∧
       (NodeState.process_commits env node ctx2).1.locked_round = 0) := by
  rcases process_commits_cases env node ctx2 with hsame | ⟨hgt, hl, hk, -, -, -, -⟩
  · have e1 := congrArg NodeState.epoch_id hsame
    have e2 := congrArg NodeState.latest_voted_round hsame
    have e3 := congrArg NodeState.locked_round hsame
    simp only at e1 e2 e3
    exact ⟨execSteps_round_mono env steps node ctx, fun _ => ⟨e2, e3⟩,
      fun hne => absurd e1 hne⟩
  · exact ⟨execSteps_round_mono env steps node ctx, fun heq => absurd heq (by omega),
      fun _ => ⟨hgt, hl, hk⟩⟩

def envC2 : Env Tcx := mkEnv (fun _ => []) 0 (fun _ => 0) none 0 0 false false

def nodeC2 : NodeState Tcx := mkNode 0 3 2 (CommitTracker.new 0 0 10)

/-- Witness for C2 at a concrete input: one update_node tick that stays in
epoch 0 does not decrease either round. -/
theorem claim_c2_witness :
    nodeC2.latest_voted_round ≤
      (execSteps envC2 nodeC2 [] [Step.update 1]).1.latest_voted_round ∧
    nodeC2.locked_round ≤ (execSteps envC2 nodeC2 [] [Step.update 1]).1.locked_round :=
  (claim_c2_round_monotonicity envC2 [Step.update 1] nodeC2 [] []).1 (by decide)

/-- C3: when process_commits reaches a committed state whose embedded epoch
id is strictly greater than the node's current epoch id (after a prefix of
the batch with no transition), the same pass adopts the new epoch id, sets
latest_voted_round and locked_round to 0, makes the old record store
retrievable through record_store_at at the old epoch id, and delivers
exactly the prefix plus the transitioning state — none of the remaining
commits. -/
theorem claim_c3_epoch_transition (env : Env T) (node : NodeState T) (ctx : T.SMRContext)
    (pre rest : List (Nat × T.State)) (r : Nat) (s : T.State)
    (hlist : env.rs_committed_states_after node.record_store
        node.tracker.highest_committed_round = pre ++ (r, s) :: rest)
    (hpre : ∀ p ∈ pre, env.smr_read_epoch_id p.2 ≤ node.epoch_id)
    (hs : env.smr_read_epoch_id s > node.epoch_id) :
    (NodeState.process_commits env node ctx).1.epoch_id = env.smr_read_epoch_id s ∧
    (NodeState.process_commits env node ctx).1.latest_voted_round = 0 ∧
    (NodeState.process_commits env node ctx).1.locked_round = 0 ∧
    NodeState.record_store_at (NodeState.process_commits env node ctx).1 node.epoch_id =
      some node.record_store ∧
    (NodeState.process_commits env node ctx).2 =
      deliverAll env node.record_store ctx (pre ++ [(r, s)]) := by
  have hunfold : NodeState.process_commits env node ctx =
      NodeState.process_commits_from env node ctx (pre ++ (r, s) :: rest) := by
    simp only [NodeState.process_commits, hlist]
  rw [hunfold, process_commits_from_transition env pre node ctx r s rest hpre hs]
  refine ⟨rfl, rfl, rfl, ?_, rfl⟩
  simp only [NodeState.record_store_at]
  rw [if_neg (by omega)]
  simp

def envC3 : Env Tcx :=
  mkEnv (fun _ => [(1, 5), (2, 9)]) 2 (fun s => if s = 5 then 1 else 0) none 0 0 false false

def nodeC3 : NodeState Tcx := mkNode 0 3 2 (CommitTracker.new 0 0 10)

/-- Witness for C3 at a concrete input: the first committed state carries
epoch 1 > 0, so the pass transitions, resets the rounds, archives the old
store, and does not deliver the second commit. -/
theorem claim_c3_witness :
    (NodeState.process_commits envC3 nodeC3 []).1.epoch_id = envC3.smr_read_epoch_id 5 ∧
    (NodeState.process_commits envC3 nodeC3 []).1.latest_voted_round = 0 ∧
    (NodeState.process_commits envC3 nodeC3 []).1.locked_round = 0 ∧
    NodeState.record_store_at (NodeState.process_commits envC3 nodeC3 []).1
      nodeC3.epoch_id = some nodeC3.record_store ∧
    (NodeState.process_commits envC3 nodeC3 []).2 =
      deliverAll envC3 nodeC3.record_store [] ([] ++ [(1, 5)]) :=
  claim_c3_epoch_transition envC3 nodeC3 [] [] [(2, 9)] 1 5 (by rfl) (by simp) (by decide)

def envC4 : Env Tcx := mkEnv (fun _ => [(1, 1), (2, 2)]) 2 (fun s => s) none 0 0 false false

def nodeC4 : NodeState Tcx := mkNode 0 0 0 (CommitTracker.new 0 0 10)

/-- Counterexample to C4 as stated: when an epoch transition fires in the
middle of the batch, process_commits does not deliver every pair after the
tracker round — here the batch retrieved from the record store has two
pairs after round 0, but only the first is delivered. -/
theorem claim_c4_counterexample :
    (NodeState.process_commits envC4 nodeC4 []).2 ≠
      deliverAll envC4 nodeC4.record_store []
        (envC4.rs_committed_states_after nodeC4.record_store
          nodeC4.tracker.highest_committed_round) := by decide

/-- C4 (amended): in every call to process_commits in which no delivered
state's embedded epoch id exceeds the node's current epoch id (no epoch
transition in the pass), the pairs delivered to the SMR context are exactly
the batch retrieved from the record store strictly after the tracker's
highest committed round, in the store's (ascending) order, with the commit
certificate passed only for the round equal to the store's highest
committed round and None for every other round; the node state is
unchanged. -/
theorem claim_c4_no_transition_delivery (env : Env T) (node : NodeState T)
    (ctx : T.SMRContext)
    (h : ∀ p ∈ env.rs_committed_states_after node.record_store
        node.tracker.highest_committed_round,
        env.smr_read_epoch_id p.2 ≤ node.epoch_id) :
    NodeState.process_commits env node ctx =
      (node, deliverAll env node.record_store ctx
        (env.rs_committed_states_after node.record_store
          node.tracker.highest_committed_round)) :=
  process_commits_from_no_transition env node ctx _ h

def envC4w : Env Tcx := mkEnv (fun _ => [(1, 0), (2, 0)]) 2 (fun _ => 0) none 0 0 false false

def nodeC4w : NodeState Tcx := mkNode 0 0 0 (CommitTracker.new 0 0 10)

/-- Witness for the amended C4 at a concrete input: a two-element batch with
no epoch change is delivered in full, with the certificate only on the
highest committed round. -/
theorem claim_c4_witness :
    NodeState.process_commits envC4w nodeC4w [] =
      (nodeC4w, deliverAll envC4w nodeC4w.record_store []
        (envC4w.rs_committed_states_after nodeC4w.record_store
          nodeC4w.tracker.highest_committed_round)) :=
  claim_c4_no_transition_delivery envC4w nodeC4w [] (by decide)

def envC5 : Env Tcx := mkEnv (fun _ => [(1, 0)]) 1 (fun _ => 0) none 0 0 false false

def nodeC5 : NodeState Tcx := mkNode 0 0 0 (CommitTracker.new 0 0 10)

/-- Counterexample to C5 as stated: process_commits never advances the
commit tracker (only update_tracker does), so two bare back-to-back
process_commits calls with an unchanged record store re-deliver the same
commit — the second call does add commits to the SMR context trace. -/
theorem claim_c5_counterexample :
    (NodeState.process_commits envC5
        (NodeState.process_commits envC5 nodeC5 []).1
        (NodeState.process_commits envC5 nodeC5 []).2).2 ≠
      (NodeState.process_commits envC5 nodeC5 []).2 := by decide

theorem process_commits_of_committed_nil (env : Env T) (node : NodeState T)
    (ctx : T.SMRContext)
    (h : env.rs_committed_states_after node.record_store
      node.tracker.highest_committed_round = []) :
    NodeState.process_commits env node ctx = (node, ctx) := by
  simp only [NodeState.process_commits, h, NodeState.process_commits_from]

/-- C5 (amended): calling process_commits, then update_tracker (as
update_node does after every commit pass), then process_commits again with
no new committed rounds added to the record store in between, delivers no
additional commits and leaves the node unchanged; the hypotheses are the
record store's interface contract that committed_states_after q returns
only rounds strictly above q and no round above the store's highest
committed round. -/
theorem claim_c5_redelivery_guard (env : Env T) (node : NodeState T) (ctx : T.SMRContext)
    (clock : Int)
    (h1 : ∀ (q : Nat) p, p ∈ env.rs_committed_states_after
        (NodeState.process_commits env node ctx).1.record_store q → q < p.1)
    (h2 : ∀ (q : Nat) p, p ∈ env.rs_committed_states_after
        (NodeState.process_commits env node ctx).1.record_store q →
        p.1 ≤ env.rs_highest_committed_round
          (NodeState.process_commits env node ctx).1.record_store) :
    NodeState.process_commits env
        (NodeState.update_tracker env (NodeState.process_commits env node ctx).1 clock)
        (NodeState.process_commits env node ctx).2 =
      (NodeState.update_tracker env (NodeState.process_commits env node ctx).1 clock,
        (NodeState.process_commits env node ctx).2) := by
  have hrs : (NodeState.update_tracker env (NodeState.process_commits env node ctx).1
      clock).record_store = (NodeState.process_commits env node ctx).1.record_store := rfl
  have hge := update_tracker_hcr_ge env (NodeState.process_commits env node ctx).1.tracker
    (NodeState.process_commits env node ctx).1.latest_query_all_time clock
    (NodeState.process_commits env node ctx).1.epoch_id
    (NodeState.process_commits env node ctx).1.record_store
  have hnil : env.rs_committed_states_after
      (NodeState.update_tracker env (NodeState.process_commits env node ctx).1
        clock).record_store
      (NodeState.update_tracker env (NodeState.process_commits env node ctx).1
        clock).tracker.highest_committed_round = [] := by
    rw [hrs]
    exact committed_states_after_nil env (NodeState.process_commits env node ctx).1.record_store
      _ h1 h2 hge
  exact process_commits_of_committed_nil env _ _ hnil

def envC5w : Env Tcx :=
  mkEnv (fun q => if q < 1 then [(1, 0)] else []) 1 (fun _ => 0) none 0 0 false false

def nodeC5w : NodeState Tcx := mkNode 0 0 0 (CommitTracker.new 0 0 10)

/-- Witness for the amended C5 at a concrete input: after the first pass
delivers the commit at round 1, update_tracker raises the tracker to round
1 and the second pass delivers nothing. -/
theorem claim_c5_witness :
    NodeState.process_commits envC5w
        (NodeState.update_tracker envC5w (NodeState.process_commits envC5w nodeC5w []).1 3)
        (NodeState.process_commits envC5w nodeC5w []).2 =
      (NodeState.update_tracker envC5w (NodeState.process_commits envC5w nodeC5w []).1 3,
        (NodeState.process_commits envC5w nodeC5w []).2) :=
  claim_c5_redelivery_guard envC5w nodeC5w [] 3
    (by
      intro q p hp
      simp [envC5w, mkEnv] at hp
      obtain ⟨hq, hpeq⟩ := hp
      subst hq
      subst hpeq
      decide)
    (by
      intro q p hp
      simp [envC5w, mkEnv] at hp
      obtain ⟨hq, hpeq⟩ := hp
      subst hpeq
      simp [envC5w, mkEnv])

/-- C7: update_tracker first updates the tracked commit round and time,
then signals should_query_all exactly when clock ≥ max(latest_commit_time,
latest_query_all_time) + target_commit_interval, computed with the
already-updated latest_commit_time, and returns next_scheduled_update equal
to the (possibly recomputed) deadline; in particular, with no commit
activity (no newer epoch and no higher committed round) and
latest_commit_time ≤ latest_query_all_time = t0, the watchdog fires exactly
at calls with clock ≥ t0 + target_commit_interval and never before. -/
theorem claim_c7_liveness_watchdog (env : Env T) (t : CommitTracker) (lqat clock : Int)
    (e : Nat) (store : T.RecordStoreState) :
    ((CommitTracker.update_tracker env t lqat clock e store).2.should_query_all = true ↔
      clock ≥ max (CommitTracker.update_tracker env t lqat clock e store).1.latest_commit_time
          lqat + (t.target_commit_interval : Int)) ∧
    ((CommitTracker.update_tracker env t lqat clock e store).2.next_scheduled_update =
      if clock ≥ max (CommitTracker.update_tracker env t lqat clock e store).1.latest_commit_time
          lqat + (t.target_commit_interval : Int)
      then clock + (t.target_commit_interval : Int)
      else max (CommitTracker.update_tracker env t lqat clock e store).1.latest_commit_time
          lqat + (t.target_commit_interval : Int)) ∧
    (¬ e > t.epoch_id →
      ¬ env.rs_highest_committed_round store > t.highest_committed_round →
      t.latest_commit_time ≤ lqat →
      ((CommitTracker.update_tracker env t lqat clock e store).2.should_query_all = true ↔
        clock ≥ lqat + (t.target_commit_interval : Int))) := by
  simp only [CommitTracker.update_tracker]
  split_ifs <;>
    refine ⟨?_, ?_, fun hA hB hC => ?_⟩ <;>
    simp_all <;>
    omega

def envC7 : Env Tcx := mkEnv (fun _ => []) 0 (fun _ => 0) none 0 0 false false

def trC7 : CommitTracker :=
  { epoch_id := 0
    highest_committed_round := 0
    latest_commit_time := 2
    target_commit_interval := 10 }

/-- Witness for C7 at a concrete input: with no commit activity,
latest_commit_time = 2 ≤ latest_query_all_time = 4 and interval 10, a call
at clock 14 fires the watchdog exactly because 14 ≥ 4 + 10. -/
theorem claim_c7_witness :
    (CommitTracker.update_tracker envC7 trC7 4 14 0 ()).2.should_query_all = true ↔
      (14 : Int) ≥ 4 + (trC7.target_commit_interval : Int) :=
  (claim_c7_liveness_watchdog envC7 trC7 4 14 0 ()).2.2 (by decide) (by decide) (by decide)

/-- C6: if the quorum-certificate check of an update_node tick reports that
a self-proposed block just reached quorum, the tick returns
should_broadcast = true and next_scheduled_update equal to the tick's input
clock — the subsequent min-merge with the commit tracker's
next_scheduled_update cannot lower it below clock, because the tracker's
returned deadline is never earlier than the clock it was computed at. -/
theorem claim_c6_qc_immediate_retick (env : Env T) (node : NodeState T) (clock : Int)
    (ctx : T.SMRContext)
    (hqc : (env.rs_check_for_new_quorum_certificate
        (NodeState.post_vote env node clock ctx).1.record_store
        (NodeState.post_vote env node clock ctx).1.local_author
        (NodeState.post_vote env node clock ctx).2.1).1 = true) :
    (NodeState.update_node env node clock ctx).2.2.should_broadcast = true ∧
    (NodeState.update_node env node clock ctx).2.2.next_scheduled_update = clock := by
  have hpre : (NodeState.pre_commits env node clock ctx).2.2 =
      { (NodeState.post_vote env node clock ctx).2.2 with
        should_broadcast := true
        next_scheduled_update := clock } := by
    simp only [NodeState.pre_commits, hqc, if_true]
  have hb : (NodeState.update_node env node clock ctx).2.2.should_broadcast =
      (NodeState.pre_commits env node clock ctx).2.2.should_broadcast := rfl
  have hn : (NodeState.update_node env node clock ctx).2.2.next_scheduled_update =
      min (NodeState.pre_commits env node clock ctx).2.2.next_scheduled_update
        ((CommitTracker.update_tracker env
          (NodeState.process_commits env (NodeState.pre_commits env node clock ctx).1
            (NodeState.pre_commits env node clock ctx).2.1).1.tracker
          (NodeState.process_commits env (NodeState.pre_commits env node clock ctx).1
            (NodeState.pre_commits env node clock ctx).2.1).1.latest_query_all_time clock
          (NodeState.process_commits env (NodeState.pre_commits env node clock ctx).1
            (NodeState.pre_commits env node clock ctx).2.1).1.epoch_id
          (NodeState.process_commits env (NodeState.pre_commits env node clock ctx).1
            (NodeState.pre_commits env node clock ctx).2.1).1.record_store).2.next_scheduled_update) := rfl
  refine ⟨?_, ?_⟩
  · rw [hb, hpre]
  · rw [hn, hpre]
    exact min_eq_left (update_tracker_nsu_ge_clock env _ _ clock _ _)

def envC6 : Env Tcx := mkEnv (fun _ => []) 0 (fun _ => 0) none 0 0 false true

def nodeC6 : NodeState Tcx := mkNode 0 0 0 (CommitTracker.new 0 0 10)

/-- Witness for C6 at a concrete input: with the quorum-certificate check
returning true, the tick at clock 5 broadcasts and schedules itself at 5. -/
theorem claim_c6_witness :
    (NodeState.update_node envC6 nodeC6 5 []).2.2.should_broadcast = true ∧
    (NodeState.update_node envC6 nodeC6 5 []).2.2.next_scheduled_update = 5 :=
  claim_c6_qc_immediate_retick envC6 nodeC6 5 [] (by rfl)

/-- C8: insert_network_record with an epoch id different from the node's
current epoch leaves the entire node state and the SMR context unchanged,
and with the matching epoch id it forwards the record to the current record
store, whose updated state replaces the node's store. -/
theorem claim_c8_foreign_epoch_records_dropped (env : Env T) (node : NodeState T)
    (epoch_id : Nat) (record : T.Record) (ctx : T.SMRContext) :
    (epoch_id ≠ node.epoch_id →
      NodeState.insert_network_record env node epoch_id record ctx = (node, ctx)) ∧
    (epoch_id = node.epoch_id →
      NodeState.insert_network_record env node epoch_id record ctx =
        ({ node with record_store :=
            (env.rs_insert_network_record node.record_store record ctx).1 },
          (env.rs_insert_network_record node.record_store record ctx).2)) := by
  constructor
  · intro h
    simp [NodeState.insert_network_record, h]
  · intro h
    simp [NodeState.insert_network_record, h]

def envC8 : Env Tcx := mkEnv (fun _ => []) 0 (fun _ => 0) none 0 0 false false

def nodeC8 : NodeState Tcx := mkNode 2 3 1 (CommitTracker.new 2 0 10)

/-- Witness for C8 at a concrete input: a record carrying epoch 5 is dropped
by a node in epoch 2 without any state change. -/
theorem claim_c8_witness :
    NodeState.insert_network_record envC8 nodeC8 5 42 [] = (nodeC8, []) :=
  (claim_c8_foreign_epoch_records_dropped envC8 nodeC8 5 42 []).1 (by decide)

/-- C10: at every reachable node state, every epoch id mapped by
past_record_stores is strictly smaller than the current epoch id; hence the
current epoch id is never present in the past mapping, and record_store_at
resolves the current epoch id to the current store alone. -/
theorem claim_c10_past_stores_below_current_epoch (env : Env T) (node : NodeState T)
    (h : Reachable env node) :
    (∀ e s, node.past_record_stores e = some s → e < node.epoch_id) ∧
    node.past_record_stores node.epoch_id = none ∧
    NodeState.record_store_at node node.epoch_id = some node.record_store := by
  have hinv : ∀ e s, node.past_record_stores e = some s → e < node.epoch_id := by
    induction h with
    | init la st nt tci d g l =>
      intro e s hs
      simp [NodeState.new] at hs
    | insert eid r ctx hr ih =>
      obtain ⟨h1, -, -, -, -, -, -, h8⟩ := insert_network_record_fields env _ eid r ctx
      intro e s hs
      rw [h8] at hs
      have := ih e s hs
      omega
    | update clock ctx hr ih => exact inv_preserved_update_node env _ clock ctx ih
    | commits ctx hr ih => exact inv_preserved_process_commits env _ ctx ih
    | track clock hr ih => exact fun e s hs => ih e s hs
  refine ⟨hinv, ?_, ?_⟩
  · cases hp : node.past_record_stores node.epoch_id with
    | none => rfl
    | some s =>
      have := hinv _ _ hp
      omega
  · simp [NodeState.record_store_at]

def envC10 : Env Tcx := mkEnv (fun _ => [(1, 1)]) 1 (fun s => s) none 0 0 false false

def nodeC10 : NodeState Tcx :=
  (NodeState.process_commits envC10 (NodeState.new envC10 0 0 0 10 0 () ()) []).1

/-- Witness for C10 at a concrete input: after one epoch transition from
the freshly constructed node, epoch 0 sits in the past mapping and is
strictly below the current epoch id. -/
theorem claim_c10_witness : 0 < nodeC10.epoch_id :=
  (claim_c10_past_stores_below_current_epoch envC10 nodeC10
    (Reachable.commits [] (Reachable.init 0 0 0 10 0 () ()))).1 0 () (by rfl)
